import Mathlib

/-!
Verification of the asynchronous directory-archival subsystem of
simpleFileServer (src/public/script.js, server part).

The development shallowly embeds the ZipProgressTracker job registry, the
countFilesRecursive pre-pass, the createZipWithProgress background task and
the two HTTP endpoints that read job state (zip-progress and download-zip).
Pure data is modelled directly; the in-memory job map is an association
list; setTimeout-scheduled actions are modelled as explicit data (a list of
scheduled eviction timers, and an explicit cleanup step for the
post-download unlink).  JavaScript numbers that can become Infinity through
division by zero are modelled by the type JsNum.
-/

namespace SFS

/-- Job status strings used by the tracker: one of the strings
initializing, counting, zipping, completed, error. -/
inductive JobStatus where
  | initializing
  | counting
  | zipping
  | completed
  | error
deriving DecidableEq, Repr

/-- Result of a JavaScript arithmetic expression that is either a finite
number or Infinity (the value of x / 0 for x > 0, as produced by the
progress computation when totalFiles is 0). -/
inductive JsNum where
  | num (n : Nat)
  | infinity
deriving DecidableEq, Repr

/-- Math.round((fp / tf) * 100) for tf > 0 on exact rationals:
round half up of 100 * fp / tf. -/
def roundPct (fp tf : Nat) : Nat :=
  (200 * fp + tf) / (2 * tf)

/-- The progress computation of the entry handler,
Math.round((filesProcessed / totalFiles) * 100), including the
division-by-zero case which yields Infinity in JavaScript. -/
def jsProgress (fp tf : Nat) : JsNum :=
  if tf = 0 then .infinity else .num (roundPct fp tf)

/-- One job record of ZipProgressTracker.createJob, with the zipPath field
that the output close handler later merges in (absent at creation). -/
structure Job where
  id : String
  folderPath : String
  startTime : Nat
  progress : JsNum
  status : JobStatus
  filesProcessed : Nat
  totalFiles : Nat
  currentFile : String
  error : Option String
  zipPath : Option String
deriving DecidableEq, Repr

instance : Inhabited Job :=
  ⟨⟨"", "", 0, .num 0, .initializing, 0, 0, "", none, none⟩⟩

/-- Partial update objects passed to ZipProgressTracker.updateJob; a field
that is none is absent from the update object.  The call sites of updateJob
pass exactly these six fields. -/
structure JobUpdates where
  status : Option JobStatus := none
  progress : Option JsNum := none
  filesProcessed : Option Nat := none
  totalFiles : Option Nat := none
  currentFile : Option String := none
  zipPath : Option String := none
deriving DecidableEq, Repr

/-- Object.assign(job, updates): every field present in the update object
overwrites the corresponding field of the job. -/
def applyUpdates (j : Job) (u : JobUpdates) : Job :=
  { j with
    status := u.status.getD j.status
    progress := u.progress.getD j.progress
    filesProcessed := u.filesProcessed.getD j.filesProcessed
    totalFiles := u.totalFiles.getD j.totalFiles
    currentFile := u.currentFile.getD j.currentFile
    zipPath := u.zipPath.orElse fun _ => j.zipPath }

/-- The activeJobs map of ZipProgressTracker, as an association list; the
first pair whose key matches is the binding (Map.set is modelled by
prepending, Map.delete by filtering out the key). -/
abbrev Registry := List (String × Job)

/-- ZipProgressTracker.getJob: activeJobs.get(jobId). -/
def getJob (r : Registry) (jobId : String) : Option Job :=
  (r.find? (fun p => p.1 == jobId)).map (fun p => p.2)

/-- The fresh job record built by ZipProgressTracker.createJob. -/
def initialJob (jobId folderPath : String) (now : Nat) : Job :=
  { id := jobId
    folderPath := folderPath
    startTime := now
    progress := .num 0
    status := .initializing
    filesProcessed := 0
    totalFiles := 0
    currentFile := ""
    error := none
    zipPath := none }

/-- ZipProgressTracker.createJob: inserts the fresh record under jobId. -/
def createJob (r : Registry) (jobId folderPath : String) (now : Nat) : Registry :=
  (jobId, initialJob jobId folderPath now) :: r

/-- Mutation of the single binding for jobId, leaving the rest of the map
unchanged (helper shared by updateJob, completeJob and errorJob). -/
def mapJob (r : Registry) (jobId : String) (f : Job → Job) : Registry :=
  r.map (fun p => if p.1 == jobId then (p.1, f p.2) else p)

/-- ZipProgressTracker.updateJob: if the job exists, Object.assign the
updates onto it; otherwise do nothing.  The source performs no check of
the current status. -/
def updateJob (r : Registry) (jobId : String) (u : JobUpdates) : Registry :=
  if (getJob r jobId).isSome then mapJob r jobId (fun j => applyUpdates j u) else r

/-- Scheduled one-shot deletion of a job: the jobId together with the
setTimeout delay in milliseconds. -/
abbrev Timer := String × Nat

/-- Delay of the eviction setTimeout in completeJob and errorJob. -/
def evictionDelayMs : Nat := 30000

/-- ZipProgressTracker.completeJob: if the job exists, set status completed
and progress 100 and schedule deletion of the record after 30000 ms.  This
method is declared in the source but never invoked by any caller. -/
def completeJob (r : Registry) (jobId : String) : Registry × List Timer :=
  if (getJob r jobId).isSome then
    (mapJob r jobId (fun j => { j with status := .completed, progress := .num 100 }),
     [(jobId, evictionDelayMs)])
  else (r, [])

/-- ZipProgressTracker.errorJob: if the job exists, set status error and
record the message of the originating failure, and schedule deletion of the
record after 30000 ms. -/
def errorJob (r : Registry) (jobId : String) (msg : String) : Registry × List Timer :=
  if (getJob r jobId).isSome then
    (mapJob r jobId (fun j => { j with status := .error, error := some msg }),
     [(jobId, evictionDelayMs)])
  else (r, [])

/-- Firing of a scheduled eviction timer: activeJobs.delete(jobId). -/
def deleteJob (r : Registry) (jobId : String) : Registry :=
  r.filter (fun p => p.1 != jobId)

mutual
/-- A directory tree as the two filesystem passes observe it.  A file
carries the flag statOk: whether fs.stat succeeds on it.  A directory
carries statOk and additionally readdirOk: whether fs.readdir succeeds
on it.  A false flag models a permission error or a concurrent deletion. -/
inductive FsTree where
  | file (name : String) (statOk : Bool)
  | dir (name : String) (statOk readdirOk : Bool) (children : FsForest)
/-- The ordered listing of a directory. -/
inductive FsForest where
  | nil
  | cons (head : FsTree) (tail : FsForest)
end

/-- Whether fs.stat succeeds on the root node of the entry. -/
def FsTree.statOk : FsTree → Bool
  | .file _ s => s
  | .dir _ s _ _ => s

mutual
/-- countFilesRecursive(dirPath): walks the listing, counting files and
recursing into directories; the try/catch around the whole loop means a
throwing fs.stat abandons the rest of that listing but keeps the count
accumulated so far, while a throwing fs.readdir yields count 0 for the
directory; either way the error never propagates to the caller. -/
def countFilesRecursive : FsTree → Nat
  | .file _ _ => 0
  | .dir _ _ rOk children => if rOk then countLoop children else 0
/-- The for-loop of countFilesRecursive over one directory listing. -/
def countLoop : FsForest → Nat
  | .nil => 0
  | .cons (.file _ sOk) rest => if sOk then 1 + countLoop rest else 0
  | .cons (.dir nm sOk rOk cs) rest =>
      if sOk then countFilesRecursive (.dir nm sOk rOk cs) + countLoop rest else 0
end

mutual
/-- Number of non-directory entries at every depth, ignoring flags: what an
error-free walk counts. -/
def trueCount : FsTree → Nat
  | .file _ _ => 1
  | .dir _ _ _ children => trueCountForest children
def trueCountForest : FsForest → Nat
  | .nil => 0
  | .cons t ts => trueCount t + trueCountForest ts
end

mutual
/-- Whether every flag in the tree is true: no filesystem operation fails. -/
def allOk : FsTree → Bool
  | .file _ s => s
  | .dir _ s r children => s && r && allOkForest children
def allOkForest : FsForest → Bool
  | .nil => true
  | .cons t ts => allOk t && allOkForest ts
end

mutual
/-- Modelled from the spec: the count that skips exactly the unreadable
subtrees — an entry whose stat or readdir fails contributes 0 and counting
of every other entry, including later siblings, continues. -/
def countPerSpec : FsTree → Nat
  | .file _ s => if s then 1 else 0
  | .dir _ s r children => if s && r then countPerSpecForest children else 0
def countPerSpecForest : FsForest → Nat
  | .nil => 0
  | .cons t ts => countPerSpec t + countPerSpecForest ts
end

mutual
/-- Modelled from the spec: the entry names the archive engine emits for a
subtree — every file and every subdirectory is an entry, named by its path
relative to the root with forward-slash separators (section 4.3); an
initially-empty directory is still an entry.  The trace below uses this for
a run in which the engine succeeds. -/
def entriesOfTree (pre : String) : FsTree → List String
  | .file nm _ => [pre ++ nm]
  | .dir nm _ _ children => (pre ++ nm ++ "/") :: entriesOfForest (pre ++ nm ++ "/") children
/-- Entry names of a directory listing, in listing order. -/
def entriesOfForest (pre : String) : FsForest → List String
  | .nil => []
  | .cons t ts => entriesOfTree pre t ++ entriesOfForest pre ts
end

/-- Entries the engine emits for archive.directory(folderPath, false): the
children of the root, the root itself mapped to the archive root. -/
def archiveEntries : FsTree → List String
  | .file nm _ => [nm]
  | .dir _ _ _ children => entriesOfForest "" children

/-- The first updateJob call of createZipWithProgress: status counting. -/
def countingUpdate : JobUpdates :=
  { status := some .counting, currentFile := some "Counting files..." }

/-- The second updateJob call: the counted totalFiles, status zipping. -/
def zippingUpdate (totalFiles : Nat) : JobUpdates :=
  { totalFiles := some totalFiles, status := some .zipping }

/-- The updateJob call of the archive entry handler after it incremented
its local filesProcessed counter to fp. -/
def entryUpdate (fp tf : Nat) (name : String) : JobUpdates :=
  { progress := some (jsProgress fp tf)
    filesProcessed := some fp
    currentFile := some name
    status := some .zipping }

/-- The updateJob call of the output close handler: the job is completed
via a plain field merge, not via completeJob. -/
def closeUpdate (zp : String) : JobUpdates :=
  { zipPath := some zp
    status := some .completed
    progress := some (.num 100)
    currentFile := some "Completed" }

/-- Updates produced by the entry handler for the given entry names, with
the local counter starting at k and the fixed denominator tf. -/
def entryUpdates (k tf : Nat) : List String → List JobUpdates
  | [] => []
  | e :: es => entryUpdate (k + 1) tf e :: entryUpdates (k + 1) tf es

/-- The updateJob calls of a successful createZipWithProgress run on the
tree t, in order: counting, zipping with the counted total, one update per
emitted entry, then the close update. -/
def runUpdates (t : FsTree) (zp : String) : List JobUpdates :=
  countingUpdate :: zippingUpdate (countFilesRecursive t)
    :: (entryUpdates 0 (countFilesRecursive t) (archiveEntries t) ++ [closeUpdate zp])

/-- Successive snapshots of the job record over a successful run: the state
a poller of getJob can observe after each updateJob call. -/
def jobTrace (jobId folderPath : String) (now : Nat) (t : FsTree) (zp : String) : List Job :=
  List.scanl applyUpdates (initialJob jobId folderPath now) (runUpdates t zp)

/-- Decimal rendering of a natural number, the value of the template
interpolation of Date.now() in the zipPath construction. -/
def natToString (n : Nat) : String :=
  ⟨(if n = 0 then [0] else (Nat.digits 10 n).reverse).map (fun d => Char.ofNat (48 + d))⟩

/-- The zipPath of createZipWithProgress:
path.join(tempDir, foldername_Date.now().zip). -/
def mkZipPath (tempDir foldername : String) (now : Nat) : String :=
  tempDir ++ "/" ++ foldername ++ "_" ++ natToString now ++ ".zip"

/-- The set of paths present on disk, for fsSync.existsSync and unlink. -/
abbrev Disk := List String

/-- fsSync.existsSync on the modelled disk. -/
def existsSync (disk : Disk) (p : String) : Bool :=
  decide (p ∈ disk)

/-- fsSync.unlink: the path no longer exists afterwards. -/
def unlink (disk : Disk) (p : String) : Disk :=
  disk.filter (fun q => decide (q ≠ p))

/-- Responses of GET /api/download-zip/:jobId, in source order: 404 when
getJob finds nothing, 400 when the job status is not completed, 404 when
the file at job.zipPath does not exist, otherwise res.download of the
file. -/
inductive DownloadResult where
  | jobNotFound
  | notCompleted
  | fileNotFound
  | download (zipPath : String)
deriving DecidableEq, Repr

/-- GET /api/download-zip/:jobId.  A completed job always has its zipPath
set by the close handler; a missing zipPath behaves like a missing file
(fsSync.existsSync of undefined is false). -/
def downloadZip (r : Registry) (disk : Disk) (jobId : String) : DownloadResult :=
  match getJob r jobId with
  | none => .jobNotFound
  | some job =>
      if job.status = .completed then
        match job.zipPath with
        | none => .fileNotFound
        | some zp => if existsSync disk zp then .download zp else .fileNotFound
      else .notCompleted

/-- HTTP status code of each download-zip response. -/
def httpStatusOf : DownloadResult → Nat
  | .jobNotFound => 404
  | .notCompleted => 400
  | .fileNotFound => 404
  | .download _ => 200

/-- Responses of GET /api/zip-progress/:jobId: 404 when getJob finds
nothing, otherwise the job snapshot. -/
inductive ProgressResult where
  | notFound
  | found (j : Job)
deriving DecidableEq, Repr

/-- GET /api/zip-progress/:jobId. -/
def zipProgress (r : Registry) (jobId : String) : ProgressResult :=
  match getJob r jobId with
  | none => .notFound
  | some j => .found j

/-- Delay of the post-download cleanup setTimeout in the download route. -/
def cleanupDelayMs : Nat := 5000

/-- State change performed when the cleanup timer of a successful download
fires: the zip file is unlinked from disk; the job registry is untouched. -/
def downloadCleanup (r : Registry) (disk : Disk) (zp : String) : Registry × Disk :=
  (r, unlink disk zp)

/-- Effect of the output close handler of createZipWithProgress on the
registry and on the scheduled eviction timers: it calls updateJob with the
close update and schedules nothing (the setTimeout eviction appears only in
completeJob and errorJob, and completeJob has no caller). -/
def closeHandlerEffect (r : Registry) (jobId zp : String) : Registry × List Timer :=
  (updateJob r jobId (closeUpdate zp), [])

/-- Effect of a failing createZipWithProgress run: createWriteStream has
already created the file at zipPath, the failure handler calls errorJob
with the message of the originating failure, and no handler removes the
file from disk. -/
def errorRunEffect (r : Registry) (disk : Disk) (jobId zp msg : String) :
    Registry × List Timer × Disk :=
  ((errorJob r jobId msg).1, (errorJob r jobId msg).2, zp :: disk)

/-- Concatenation of directory listings, used to state which part of a
listing the counting loop still processes after a failure. -/
def FsForest.append : FsForest → FsForest → FsForest
  | .nil, ys => ys
  | .cons x xs, ys => .cons x (FsForest.append xs ys)

/-- A directory holding one subdirectory with one file: one countable file
but two archive entries. -/
def treeWithSubdir : FsTree :=
  .dir "root" true true (.cons (.dir "sub" true true (.cons (.file "a" true) .nil)) .nil)

/-- A directory with no entries at all. -/
def emptyDirTree : FsTree := .dir "photos" true true .nil

/-- A directory whose only child is an empty subdirectory: zero countable
files, one archive entry. -/
def onlyEmptySubdirTree : FsTree :=
  .dir "docs" true true (.cons (.dir "sub" true true .nil) .nil)

/-- A listing in which the stat of the first file fails while the second
file is readable. -/
def statFailListing : FsTree :=
  .dir "d" true true (.cons (.file "a" false) (.cons (.file "b" true) .nil))

/-- A completed job as the close handler leaves it, used as a concrete
registry state. -/
def jobDone : Job :=
  { initialJob "j" "/d/photos" 0 with
    status := .completed
    progress := .num 100
    zipPath := some "/t/photos_0.zip"
    currentFile := "Completed" }

/-- Comparison of two successive job snapshots by their filesProcessed
field. -/
def fpLe (a b : Job) : Prop :=
  a.filesProcessed ≤ b.filesProcessed

instance : IsTrans Job fpLe :=
  ⟨fun _ _ _ h1 h2 => Nat.le_trans h1 h2⟩

/-- The progress contract of claim C3 as amended: the rounded ratio while
the job is in flight with a known non-zero total, zero before the total is
known, and exactly 100 once completed. -/
def progressContract (j : Job) : Prop :=
  (j.status ≠ .completed → 0 < j.totalFiles →
    j.progress = .num (roundPct j.filesProcessed j.totalFiles)) ∧
  ((j.status = .initializing ∨ j.status = .counting) → j.progress = .num 0) ∧
  (j.status = .completed → j.progress = .num 100)

/-- Digit value of a decimal digit character (proof device for reading a
rendered number back). -/
def charToDigit (c : Char) : Nat := c.toNat - 48

/-- Reads the decimal rendering of natToString back to the number (proof
device for the injectivity of natToString). -/
def parseNat (s : String) : Nat :=
  Nat.ofDigits 10 ((s.data.map charToDigit).reverse)

/-! Helper lemmas about the registry. -/

theorem getJob_cons (p : String × Job) (r : Registry) (jobId : String) :
    getJob (p :: r) jobId = if p.1 == jobId then some p.2 else getJob r jobId := by
  by_cases h : (p.1 == jobId) = true
  · simp [getJob, List.find?_cons_of_pos, h]
  · simp [getJob, List.find?_cons_of_neg, h]

theorem getJob_mapJob (r : Registry) (jobId : String) (f : Job → Job) :
    getJob (mapJob r jobId f) jobId = (getJob r jobId).map f := by
  induction r with
  | nil => rfl
  | cons p r ih =>
      have hmap : mapJob (p :: r) jobId f
          = (if p.1 == jobId then (p.1, f p.2) else p) :: mapJob r jobId f := rfl
      rw [hmap]
      by_cases h : (p.1 == jobId) = true
      · rw [if_pos h, getJob_cons, getJob_cons, if_pos h, if_pos h]; rfl
      · rw [if_neg h, getJob_cons, getJob_cons, if_neg h, if_neg h]; exact ih

theorem getJob_deleteJob (r : Registry) (jobId : String) :
    getJob (deleteJob r jobId) jobId = none := by
  have hfind : List.find? (fun p => p.1 == jobId) (deleteJob r jobId) = none := by
    rw [List.find?_eq_none]
    intro p hp
    have hne := (List.mem_filter.mp hp).2
    simp only [bne_iff_ne, ne_eq] at hne
    simpa using hne
  simp [getJob, hfind]

theorem getJob_updateJob (r : Registry) (jobId : String) (u : JobUpdates) (j : Job)
    (h : getJob r jobId = some j) :
    getJob (updateJob r jobId u) jobId = some (applyUpdates j u) := by
  simp [updateJob, h, getJob_mapJob]

/-- C2, counterexample: updateJob performs no terminal-state check, so the
callback sequence error-then-close moves a concrete job from the terminal
state error to completed, refuting both the single-terminal-state claim and
the claim that updateJob leaves terminal jobs unchanged. -/
theorem c2_terminal_guard_missing_counterexample :
    ((getJob ((errorJob (createJob [] "zip_1" "/d" 0) "zip_1" "disk failure").1) "zip_1").map
        Job.status = some .error) ∧
    ((getJob (updateJob ((errorJob (createJob [] "zip_1" "/d" 0) "zip_1" "disk failure").1)
        "zip_1" (closeUpdate "/t/d_0.zip")) "zip_1").map Job.status = some .completed) :=
  ⟨rfl, rfl⟩

/-- C2, amended: updateJob never crashes; it is a no-op when the job is
missing, and when the job exists it merges the given fields regardless of
the current status (terminal states included). -/
theorem c2_updateJob_missing_noop (r : Registry) (jobId : String) (u : JobUpdates) :
    (getJob r jobId = none → updateJob r jobId u = r) ∧
    (∀ j, getJob r jobId = some j →
      getJob (updateJob r jobId u) jobId = some (applyUpdates j u)) := by
  refine ⟨fun h => by simp [updateJob, h], fun j h => getJob_updateJob r jobId u j h⟩

/-- Witness for c2_updateJob_missing_noop at a missing id and at a present
job. -/
theorem c2_updateJob_witness :
    updateJob [] "ghost" countingUpdate = ([] : Registry) ∧
    getJob (updateJob [("j", initialJob "j" "/d" 0)] "j" countingUpdate) "j"
      = some (applyUpdates (initialJob "j" "/d" 0) countingUpdate) :=
  ⟨(c2_updateJob_missing_noop [] "ghost" countingUpdate).1 rfl,
   (c2_updateJob_missing_noop [("j", initialJob "j" "/d" 0)] "j" countingUpdate).2
     (initialJob "j" "/d" 0) rfl⟩

/-- C5, code evaluation: the output close handler completes a job through
updateJob and schedules no eviction timer, so a completed job stays in the
registry; errorJob and the never-called completeJob are the only places
that schedule the 30000 ms eviction. -/
theorem c5_completed_never_evicted_eval :
    (closeHandlerEffect (createJob [] "zip_1" "/d/photos" 0) "zip_1" "/t/photos_0.zip").2 = [] ∧
    ((getJob (closeHandlerEffect (createJob [] "zip_1" "/d/photos" 0) "zip_1"
        "/t/photos_0.zip").1 "zip_1").map Job.status = some .completed) ∧
    (errorJob (createJob [] "zip_1" "/d/photos" 0) "zip_1" "boom").2 = [("zip_1", 30000)] ∧
    (completeJob (createJob [] "zip_1" "/d/photos" 0) "zip_1").2 = [("zip_1", 30000)] :=
  ⟨rfl, rfl, rfl, rfl⟩

/-- C6, counterexample: after a failing run the partially written artifact
is still on disk — no handler unlinks it — refuting the claim that the
partial artifact file is discarded. -/
theorem c6_partial_artifact_remains_counterexample :
    (errorRunEffect (createJob [] "j" "/d" 0) [] "j" "/t/d_7.zip" "EIO: read failed").2.2
      = ["/t/d_7.zip"] ∧
    ((getJob (errorRunEffect (createJob [] "j" "/d" 0) [] "j" "/t/d_7.zip"
        "EIO: read failed").1 "j").map Job.status = some .error) :=
  ⟨rfl, rfl⟩

/-- C6, amended: a failure puts the job into the error state carrying the
originating message, and no partial artifact is fetchable through
download-zip (the errored job is never completed), but the partially
written file remains on disk. -/
theorem c6_error_path (r : Registry) (disk : Disk) (jobId zp msg : String) (j : Job)
    (hj : getJob r jobId = some j) :
    ((getJob (errorRunEffect r disk jobId zp msg).1 jobId).map Job.status = some .error) ∧
    ((getJob (errorRunEffect r disk jobId zp msg).1 jobId).map Job.error = some (some msg)) ∧
    (∀ p, downloadZip (errorRunEffect r disk jobId zp msg).1
        (errorRunEffect r disk jobId zp msg).2.2 jobId ≠ .download p) ∧
    zp ∈ (errorRunEffect r disk jobId zp msg).2.2 := by
  have hget : getJob (errorRunEffect r disk jobId zp msg).1 jobId
      = some { j with status := .error, error := some msg } := by
    simp [errorRunEffect, errorJob, hj, getJob_mapJob]
  refine ⟨by simp [hget], by simp [hget], fun p => ?_, List.mem_cons_self zp disk⟩
  simp [downloadZip, hget]

/-- Witness for c6_error_path at a concrete one-job registry. -/
theorem c6_error_path_witness :
    ((getJob (errorRunEffect [("j", initialJob "j" "/d" 0)] [] "j" "/t/d_7.zip" "EIO").1
        "j").map Job.status = some .error) ∧
    ((getJob (errorRunEffect [("j", initialJob "j" "/d" 0)] [] "j" "/t/d_7.zip" "EIO").1
        "j").map Job.error = some (some "EIO")) ∧
    (∀ p, downloadZip (errorRunEffect [("j", initialJob "j" "/d" 0)] [] "j" "/t/d_7.zip"
        "EIO").1 (errorRunEffect [("j", initialJob "j" "/d" 0)] [] "j" "/t/d_7.zip"
        "EIO").2.2 "j" ≠ .download p) ∧
    "/t/d_7.zip" ∈ (errorRunEffect [("j", initialJob "j" "/d" 0)] [] "j" "/t/d_7.zip"
        "EIO").2.2 :=
  c6_error_path [("j", initialJob "j" "/d" 0)] [] "j" "/t/d_7.zip" "EIO"
    (initialJob "j" "/d" 0) rfl

/-- C7: download-zip yields the 404 job-not-found response exactly when
getJob finds nothing (an evicted job being indistinguishable from one that
never existed), yields the 400 not-completed response for every job whose
status is not completed, and streams a file only for completed jobs. -/
theorem c7_download_gate (r : Registry) (disk : Disk) (jobId : String) :
    (getJob r jobId = none → downloadZip r disk jobId = .jobNotFound) ∧
    (∀ j, getJob r jobId = some j → j.status ≠ .completed →
      downloadZip r disk jobId = .notCompleted) ∧
    (∀ zp, downloadZip r disk jobId = .download zp →
      ∃ j, getJob r jobId = some j ∧ j.status = .completed) ∧
    downloadZip (deleteJob r jobId) disk jobId = .jobNotFound := by
  refine ⟨fun h => by simp [downloadZip, h], fun j h hs => by simp [downloadZip, h, hs],
    fun zp hd => ?_, by simp [downloadZip, getJob_deleteJob]⟩
  rcases hg : getJob r jobId with - | j
  · rw [downloadZip, hg] at hd; exact absurd hd (by simp)
  · refine ⟨j, rfl, ?_⟩
    by_cases hs : j.status = .completed
    · exact hs
    · rw [downloadZip, hg] at hd; simp [hs] at hd

/-- Witness for c7_download_gate: the not-found and not-ready gates at
concrete states. -/
theorem c7_download_gate_witness :
    downloadZip [] [] "ghost" = .jobNotFound ∧
    downloadZip [("j", initialJob "j" "/d" 0)] [] "j" = .notCompleted :=
  ⟨(c7_download_gate [] [] "ghost").1 rfl,
   (c7_download_gate [("j", initialJob "j" "/d" 0)] [] "j").2.1 (initialJob "j" "/d" 0)
     rfl (by decide)⟩

/-- C10: a completed job with its artifact on disk downloads once; when the
5000 ms cleanup timer fires, the file is unlinked while the job record
stays in the registry with status completed, so a second download returns
the 404 file-not-found response although zip-progress still reports the
completed job. -/
theorem c10_claimed_artifact_cleanup (r : Registry) (disk : Disk) (jobId zp : String)
    (j : Job) (hj : getJob r jobId = some j) (hs : j.status = .completed)
    (hz : j.zipPath = some zp) (hd : zp ∈ disk) :
    downloadZip r disk jobId = .download zp ∧
    cleanupDelayMs = 5000 ∧
    getJob (downloadCleanup r disk zp).1 jobId = some j ∧
    downloadZip (downloadCleanup r disk zp).1 (downloadCleanup r disk zp).2 jobId
      = .fileNotFound ∧
    httpStatusOf (downloadZip (downloadCleanup r disk zp).1
      (downloadCleanup r disk zp).2 jobId) = 404 ∧
    zipProgress (downloadCleanup r disk zp).1 jobId = .found j := by
  have hgone : existsSync (unlink disk zp) zp = false := by
    simp [existsSync, unlink, List.mem_filter]
  have hsecond : downloadZip (downloadCleanup r disk zp).1 (downloadCleanup r disk zp).2
      jobId = .fileNotFound := by
    simp [downloadZip, downloadCleanup, hj, hs, hz, hgone]
  refine ⟨by simp [downloadZip, hj, hs, hz, existsSync, hd], rfl, hj, hsecond, ?_, ?_⟩
  · rw [hsecond]; rfl
  · simp [zipProgress, downloadCleanup, hj]

/-- Witness for c10_claimed_artifact_cleanup at a concrete completed job
whose artifact exists on disk. -/
theorem c10_claimed_artifact_cleanup_witness :
    downloadZip [("j", jobDone)] ["/t/photos_0.zip"] "j" = .download "/t/photos_0.zip" ∧
    cleanupDelayMs = 5000 ∧
    getJob (downloadCleanup [("j", jobDone)] ["/t/photos_0.zip"] "/t/photos_0.zip").1 "j"
      = some jobDone ∧
    downloadZip (downloadCleanup [("j", jobDone)] ["/t/photos_0.zip"] "/t/photos_0.zip").1
      (downloadCleanup [("j", jobDone)] ["/t/photos_0.zip"] "/t/photos_0.zip").2 "j"
      = .fileNotFound ∧
    httpStatusOf (downloadZip
      (downloadCleanup [("j", jobDone)] ["/t/photos_0.zip"] "/t/photos_0.zip").1
      (downloadCleanup [("j", jobDone)] ["/t/photos_0.zip"] "/t/photos_0.zip").2 "j") = 404 ∧
    zipProgress (downloadCleanup [("j", jobDone)] ["/t/photos_0.zip"] "/t/photos_0.zip").1
      "j" = .found jobDone :=
  c10_claimed_artifact_cleanup [("j", jobDone)] ["/t/photos_0.zip"] "j" "/t/photos_0.zip"
    jobDone rfl rfl rfl (List.mem_singleton_self "/t/photos_0.zip")

/-! Lemmas about countFilesRecursive. -/

mutual
theorem countDir_allOk : ∀ (nm : String) (s r : Bool) (cs : FsForest),
    allOk (.dir nm s r cs) = true →
    countFilesRecursive (.dir nm s r cs) = trueCount (.dir nm s r cs)
  | nm, s, r, cs, h => by
      simp only [allOk, Bool.and_eq_true] at h
      obtain ⟨⟨-, hr⟩, hcs⟩ := h
      subst hr
      simp only [countFilesRecursive, trueCount, if_true]
      exact countForest_allOk cs hcs
theorem countForest_allOk : ∀ f : FsForest, allOkForest f = true →
    countLoop f = trueCountForest f
  | .nil, _ => rfl
  | .cons (.file nm sOk) ts, h => by
      simp only [allOkForest, allOk, Bool.and_eq_true] at h
      obtain ⟨hs, hts⟩ := h
      subst hs
      simp only [countLoop, trueCountForest, trueCount, if_true]
      rw [countForest_allOk ts hts]
  | .cons (.dir nm sOk rOk cs) ts, h => by
      simp only [allOkForest, Bool.and_eq_true] at h
      obtain ⟨ht, hts⟩ := h
      have hs : sOk = true := by
        simp only [allOk, Bool.and_eq_true] at ht
        exact ht.1.1
      subst hs
      simp only [countLoop, trueCountForest, if_true]
      rw [countDir_allOk nm true rOk cs ht, countForest_allOk ts hts]
end

theorem countLoop_unreadable_dir (nm : String) (cs rest : FsForest) :
    countLoop (.cons (.dir nm true false cs) rest) = countLoop rest := by
  simp [countLoop, countFilesRecursive]

theorem countLoop_stat_failure (bad : FsTree) (hbad : bad.statOk = false) :
    ∀ (xs suf suf2 : FsForest),
      countLoop (xs.append (.cons bad suf)) = countLoop (xs.append (.cons bad suf2))
  | .nil, suf, suf2 => by
      cases bad with
      | file nm s =>
          simp only [FsTree.statOk] at hbad
          simp [FsForest.append, countLoop, hbad]
      | dir nm s r cs =>
          simp only [FsTree.statOk] at hbad
          simp [FsForest.append, countLoop, hbad]
  | .cons x xs, suf, suf2 => by
      have ih := countLoop_stat_failure bad hbad xs suf suf2
      cases x with
      | file nm s => simp [FsForest.append, countLoop, ih]
      | dir nm s r cs => simp [FsForest.append, countLoop, ih]

/-- C8, counterexample: when the stat of the first file of a listing fails,
the readable second file is not counted either — the loop abandons the
whole rest of the listing — while skipping exactly the unreadable subtree
(countPerSpec, the behavior the claim describes) would count it. -/
theorem c8_sibling_skip_counterexample :
    countFilesRecursive statFailListing = 0 ∧ countPerSpec statFailListing = 1 ∧
    countFilesRecursive statFailListing ≠ countPerSpec statFailListing :=
  ⟨rfl, rfl, by decide⟩

/-- C8, amended: with no filesystem failures the walk counts exactly the
non-directory entries at every depth; a directory whose readdir fails is
skipped as a whole while later siblings are still counted; but a failing
stat abandons the remainder of that directory listing — the count does not
depend on the entries after the failing one — rather than skipping only
the failing subtree. -/
theorem c8_count_behavior :
    (∀ (nm : String) (s r : Bool) (cs : FsForest), allOk (.dir nm s r cs) = true →
      countFilesRecursive (.dir nm s r cs) = trueCount (.dir nm s r cs)) ∧
    (∀ (nm : String) (cs rest : FsForest),
      countLoop (.cons (.dir nm true false cs) rest) = countLoop rest) ∧
    (∀ bad : FsTree, bad.statOk = false → ∀ xs suf suf2 : FsForest,
      countLoop (xs.append (.cons bad suf)) = countLoop (xs.append (.cons bad suf2))) :=
  ⟨countDir_allOk, countLoop_unreadable_dir,
   fun bad h xs suf suf2 => countLoop_stat_failure bad h xs suf suf2⟩

/-- Witness for c8_count_behavior on concrete trees: an error-free tree is
counted exactly, an unreadable subdirectory leaves the sibling count
intact, and a suffix behind a failing stat is irrelevant. -/
theorem c8_count_behavior_witness :
    countFilesRecursive treeWithSubdir = trueCount treeWithSubdir ∧
    countLoop (.cons (.dir "u" true false .nil) (.cons (.file "b" true) .nil))
      = countLoop (.cons (.file "b" true) .nil) ∧
    countLoop (FsForest.append .nil
        (.cons (.file "a" false) (.cons (.file "b" true) .nil)))
      = countLoop (FsForest.append .nil (.cons (.file "a" false) .nil)) :=
  ⟨c8_count_behavior.1 "root" true true
     (.cons (.dir "sub" true true (.cons (.file "a" true) .nil)) .nil) rfl,
   c8_count_behavior.2.1 "u" .nil (.cons (.file "b" true) .nil),
   c8_count_behavior.2.2 (.file "a" false) rfl .nil (.cons (.file "b" true) .nil) .nil⟩

/-! Lemmas about the zipPath construction. -/

theorem charToDigit_ofNat (d : Nat) (hd : d < 10) :
    charToDigit (Char.ofNat (48 + d)) = d := by
  interval_cases d <;> rfl

theorem parseNat_natToString (n : Nat) : parseNat (natToString n) = n := by
  set L : List Nat := if n = 0 then [0] else (Nat.digits 10 n).reverse with hL
  have hlt : ∀ d ∈ L, d < 10 := by
    intro d hd
    rw [hL] at hd
    by_cases h : n = 0
    · rw [if_pos h] at hd
      simp only [List.mem_singleton] at hd
      omega
    · rw [if_neg h] at hd
      exact Nat.digits_lt_base (by norm_num) (List.mem_reverse.mp hd)
  have hdata : (natToString n).data = L.map (fun d => Char.ofNat (48 + d)) := rfl
  have hback : (L.map (fun d => Char.ofNat (48 + d))).map charToDigit = L := by
    rw [List.map_map]
    calc L.map (charToDigit ∘ fun d => Char.ofNat (48 + d)) = L.map id :=
          List.map_congr_left (fun d hd => charToDigit_ofNat d (hlt d hd))
      _ = L := List.map_id L
  rw [parseNat, hdata, hback, hL]
  by_cases h : n = 0
  · rw [if_pos h, h]
    simp [Nat.ofDigits]
  · rw [if_neg h, List.reverse_reverse]
    exact Nat.ofDigits_digits 10 n

theorem natToString_injective : Function.Injective natToString := by
  intro m n h
  have hp := congrArg parseNat h
  rwa [parseNat_natToString, parseNat_natToString] at hp

/-- C9, counterexample: two distinct concurrent jobs on the same folder
name whose zipPath constructions run in the same Date.now() millisecond
compute the same artifact path, so the claimed distinctness fails. -/
theorem c9_same_ms_collision_counterexample :
    ¬ (∀ (jobId1 jobId2 foldername : String) (now1 now2 : Nat), jobId1 ≠ jobId2 →
        mkZipPath "/srv/temp" foldername now1 ≠ mkZipPath "/srv/temp" foldername now2) :=
  fun hclaim => hclaim "zip_5_a" "zip_5_b" "photos" 5 5 (by decide) rfl

/-- C9, amended: artifact paths of two jobs on the same folder name are
distinct whenever the Date.now() values at their zipPath constructions
differ; only jobs that construct the path in the same millisecond
collide. -/
theorem c9_distinct_timestamps (tempDir foldername : String) (t1 t2 : Nat)
    (h : t1 ≠ t2) :
    mkZipPath tempDir foldername t1 ≠ mkZipPath tempDir foldername t2 := by
  intro he
  apply h
  apply natToString_injective
  have hd := congrArg String.data he
  simp only [mkZipPath, String.data_append, List.append_assoc] at hd
  have h1 := List.append_cancel_left (List.append_cancel_left
    (List.append_cancel_left (List.append_cancel_left hd)))
  exact String.ext (List.append_cancel_right h1)

/-- Witness for c9_distinct_timestamps at two concrete adjacent
millisecond timestamps. -/
theorem c9_distinct_timestamps_witness :
    mkZipPath "/srv/temp" "photos" 5 ≠ mkZipPath "/srv/temp" "photos" 6 :=
  c9_distinct_timestamps "/srv/temp" "photos" 5 6 (by decide)

/-! Lemmas about the run trace. -/

theorem applyUpdates_entry (j : Job) (fp tf : Nat) (nm : String) :
    applyUpdates j (entryUpdate fp tf nm)
      = { j with
          progress := jsProgress fp tf
          filesProcessed := fp
          currentFile := nm
          status := .zipping } := rfl

theorem scanl_head (f : β → α → β) (b : β) (l : List α) :
    ∃ t, List.scanl f b l = b :: t := by
  cases l with
  | nil => exact ⟨[], rfl⟩
  | cons a l => exact ⟨List.scanl f (f b a) l, by simp [List.scanl_cons]⟩

theorem chain_fpLe_entry_phase (zp : String) :
    ∀ (names : List String) (k tf : Nat) (j : Job), j.filesProcessed = k →
      List.Chain' fpLe
        (List.scanl applyUpdates j (entryUpdates k tf names ++ [closeUpdate zp]))
  | [], k, tf, j, hj => by
      simp only [entryUpdates, List.nil_append, List.scanl_cons, List.scanl_nil,
        List.singleton_append]
      exact List.chain'_cons.mpr ⟨Nat.le_refl _, List.chain'_singleton _⟩
  | e :: es, k, tf, j, hj => by
      have ih := chain_fpLe_entry_phase zp es (k + 1) tf
        (applyUpdates j (entryUpdate (k + 1) tf e)) rfl
      obtain ⟨tl, htl⟩ := scanl_head applyUpdates
        (applyUpdates j (entryUpdate (k + 1) tf e))
        (entryUpdates (k + 1) tf es ++ [closeUpdate zp])
      simp only [entryUpdates, List.cons_append, List.scanl_cons, List.singleton_append]
      rw [htl] at ih ⊢
      refine List.chain'_cons.mpr ⟨?_, ih⟩
      show j.filesProcessed ≤ (applyUpdates j (entryUpdate (k + 1) tf e)).filesProcessed
      rw [hj, applyUpdates_entry]
      exact Nat.le_succ k

/-- C1, amended: over every run trace, filesProcessed is non-decreasing
across successive polls — every later snapshot reports at least as many
processed files — although it can exceed totalFiles (see the
counterexample) because directory entries also emit progress events. -/
theorem c1_filesProcessed_monotone (jobId folderPath : String) (now : Nat) (t : FsTree)
    (zp : String) :
    List.Pairwise fpLe (jobTrace jobId folderPath now t zp) := by
  rw [← List.chain'_iff_pairwise]
  unfold jobTrace runUpdates
  rw [List.scanl_cons, List.singleton_append, List.scanl_cons, List.singleton_append]
  have hch := chain_fpLe_entry_phase zp (archiveEntries t) 0 (countFilesRecursive t)
    (applyUpdates (applyUpdates (initialJob jobId folderPath now) countingUpdate)
      (zippingUpdate (countFilesRecursive t))) rfl
  obtain ⟨tl, htl⟩ := scanl_head applyUpdates
    (applyUpdates (applyUpdates (initialJob jobId folderPath now) countingUpdate)
      (zippingUpdate (countFilesRecursive t)))
    (entryUpdates 0 (countFilesRecursive t) (archiveEntries t) ++ [closeUpdate zp])
  rw [htl] at hch ⊢
  exact List.chain'_cons.mpr ⟨Nat.le_refl _, List.chain'_cons.mpr ⟨Nat.le_refl _, hch⟩⟩

/-- C1, counterexample: after the second entry event of a run on a
directory whose single countable file sits inside a subdirectory, the
snapshot has totalFiles = 1 (non-zero) but filesProcessed = 2, because the
subdirectory entry also emitted a progress event — refuting the claimed
bound. -/
theorem c1_exceeds_total_counterexample :
    ((jobTrace "zip_1" "/d/root" 0 treeWithSubdir "/t/root_0.zip").getD 4 default).totalFiles
      = 1 ∧
    ((jobTrace "zip_1" "/d/root" 0 treeWithSubdir "/t/root_0.zip").getD 4
      default).filesProcessed = 2 :=
  ⟨rfl, rfl⟩

theorem progressContract_of_zipping (j : Job) (k tf : Nat) (hst : j.status = .zipping)
    (htf : j.totalFiles = tf) (hfp : j.filesProcessed = k)
    (hp : j.progress = .num 0 ∧ k = 0 ∨ j.progress = jsProgress k tf) :
    progressContract j := by
  refine ⟨fun _ hpos => ?_, fun hini => ?_, fun hcomp => ?_⟩
  · rw [htf] at hpos
    rcases hp with ⟨hp0, hk⟩ | hpj
    · rw [hp0, hfp, hk, htf]
      have : roundPct 0 tf = 0 := by
        unfold roundPct
        rw [Nat.mul_zero, Nat.zero_add]
        exact Nat.div_eq_of_lt (by omega)
      rw [this]
    · rw [hpj, hfp, htf]
      unfold jsProgress
      rw [if_neg (by omega)]
  · rcases hini with h | h <;> rw [hst] at h <;> exact nomatch h
  · rw [hst] at hcomp; exact nomatch hcomp

theorem progressContract_close (j : Job) (zp : String) :
    progressContract (applyUpdates j (closeUpdate zp)) := by
  refine ⟨fun hne _ => absurd rfl hne, fun h => ?_, fun _ => rfl⟩
  rcases h with h | h <;> exact nomatch h

theorem progressContract_entry_phase (zp : String) :
    ∀ (names : List String) (k tf : Nat) (j : Job),
      j.status = .zipping → j.totalFiles = tf → j.filesProcessed = k →
      (j.progress = .num 0 ∧ k = 0 ∨ j.progress = jsProgress k tf) →
      ∀ x ∈ List.scanl applyUpdates j (entryUpdates k tf names ++ [closeUpdate zp]),
        progressContract x
  | [], k, tf, j, hst, htf, hfp, hp => by
      simp only [entryUpdates, List.nil_append, List.scanl_cons, List.scanl_nil,
        List.singleton_append]
      intro x hx
      rcases List.mem_cons.mp hx with rfl | hx
      · exact progressContract_of_zipping x k tf hst htf hfp hp
      · rw [List.mem_singleton.mp hx]
        exact progressContract_close j zp
  | e :: es, k, tf, j, hst, htf, hfp, hp => by
      simp only [entryUpdates, List.cons_append, List.scanl_cons, List.singleton_append]
      intro x hx
      rcases List.mem_cons.mp hx with rfl | hx
      · exact progressContract_of_zipping x k tf hst htf hfp hp
      · exact progressContract_entry_phase zp es (k + 1) tf
          (applyUpdates j (entryUpdate (k + 1) tf e)) rfl htf rfl (Or.inr rfl) x hx

/-- C3, amended: every snapshot of every run satisfies the progress
contract — progress equals round(filesProcessed / totalFiles * 100)
whenever totalFiles is non-zero and the job is not yet completed, equals 0
before totalFiles is known (initializing and counting), and is forced to
exactly 100 on completed; on completed snapshots the formula itself need
not hold (see the counterexample). -/
theorem c3_progress_contract (jobId folderPath : String) (now : Nat) (t : FsTree)
    (zp : String) :
    ∀ x ∈ jobTrace jobId folderPath now t zp, progressContract x := by
  unfold jobTrace runUpdates
  rw [List.scanl_cons, List.singleton_append, List.scanl_cons, List.singleton_append]
  intro x hx
  rcases List.mem_cons.mp hx with rfl | hx
  · exact ⟨fun _ h0 => absurd h0 (Nat.lt_irrefl 0), fun _ => rfl, fun h => nomatch h⟩
  rcases List.mem_cons.mp hx with rfl | hx
  · exact ⟨fun _ h0 => absurd h0 (Nat.lt_irrefl 0), fun _ => rfl, fun h => nomatch h⟩
  · exact progressContract_entry_phase zp (archiveEntries t) 0 (countFilesRecursive t)
      (applyUpdates (applyUpdates (initialJob jobId folderPath now) countingUpdate)
        (zippingUpdate (countFilesRecursive t))) rfl rfl rfl (Or.inl ⟨rfl, rfl⟩) x hx

/-- Witness for c3_progress_contract: the final snapshot of a concrete run
is completed with progress exactly 100. -/
theorem c3_progress_contract_witness :
    ((jobTrace "zip_1" "/d/photos" 0 emptyDirTree "/t/photos_0.zip").getD 3
      default).progress = .num 100 :=
  (c3_progress_contract "zip_1" "/d/photos" 0 emptyDirTree "/t/photos_0.zip"
    ((jobTrace "zip_1" "/d/photos" 0 emptyDirTree "/t/photos_0.zip").getD 3 default)
    (by decide)).2.2 rfl

/-- C3, counterexample: the completed snapshot of a run on a directory
with a subdirectory has totalFiles = 1 > 0 and progress 100, while the
claimed formula gives round(2 / 1 * 100) = 200 — the formula clause and
the forced-100 clause cannot both hold there, and the code keeps 100. -/
theorem c3_progress_formula_counterexample :
    ((jobTrace "zip_1" "/d/root" 0 treeWithSubdir "/t/root_0.zip").getD 5 default).totalFiles
      = 1 ∧
    ((jobTrace "zip_1" "/d/root" 0 treeWithSubdir "/t/root_0.zip").getD 5 default).progress
      = .num 100 ∧
    roundPct ((jobTrace "zip_1" "/d/root" 0 treeWithSubdir "/t/root_0.zip").getD 5
        default).filesProcessed
      ((jobTrace "zip_1" "/d/root" 0 treeWithSubdir "/t/root_0.zip").getD 5
        default).totalFiles = 200 ∧
    ((jobTrace "zip_1" "/d/root" 0 treeWithSubdir "/t/root_0.zip").getD 5 default).progress
      ≠ .num (roundPct ((jobTrace "zip_1" "/d/root" 0 treeWithSubdir
        "/t/root_0.zip").getD 5 default).filesProcessed
        ((jobTrace "zip_1" "/d/root" 0 treeWithSubdir "/t/root_0.zip").getD 5
          default).totalFiles) :=
  ⟨rfl, rfl, rfl, by decide⟩

/-- C4, code evaluation: on an empty directory the job enters zipping with
totalFiles = 0 while progress is still 0 — not the claimed immediate 100 —
and on a directory whose only child is an empty subdirectory the first
entry event divides by zero, setting progress to Infinity. -/
theorem c4_empty_dir_eval :
    ((jobTrace "zip_1" "/d/photos" 0 emptyDirTree "/t/photos_0.zip").getD 2 default).status
      = .zipping ∧
    ((jobTrace "zip_1" "/d/photos" 0 emptyDirTree "/t/photos_0.zip").getD 2
      default).totalFiles = 0 ∧
    ((jobTrace "zip_1" "/d/photos" 0 emptyDirTree "/t/photos_0.zip").getD 2
      default).progress = .num 0 ∧
    ((jobTrace "zip_2" "/d/docs" 0 onlyEmptySubdirTree "/t/docs_0.zip").getD 3
      default).progress = .infinity :=
  ⟨rfl, rfl, rfl, rfl⟩

end SFS
